import Mathlib

/-!
Shallow embedding of the HugeCTR Triton backend (src/src/hugectr.cc) and
proofs about its buffer allocation, model-configuration parsing and
validation, instance construction, and per-request execution pipeline.

Machine integers are modelled as Nat (size_t, uint64_t, byte counts) and
Int (int64_t configuration values).  Memory acquisition (cudaMalloc /
cudaMallocHost) is modelled as an event list carried alongside the buffer
state, with a caller-supplied fresh address standing for the returned
pointer; logging to stderr/stdout is modelled as a Boolean flag where the
source logs and falls through — except for the one log whose argument is
itself undefined behavior (the null requested_output_name concatenated
into a std::string in the execute loop), which is modelled as a process
crash.
-/

namespace HugectrBackend

/-- The MEMORY_TYPE enum of the source (GPU, CPU, PIN). -/
inductive MemoryType
  | GPU
  | CPU
  | PIN
deriving DecidableEq, Repr

/-- State of HugeCTRBuffer<T>.  The template parameter T is represented by
its byte size `sizeofT` (sizeof(float)=4, sizeof(long long)=8, ...).
`ptr = none` models `ptr_ == nullptr`.  `total_num_elements` is a
member the source constructor leaves uninitialized; it is modelled as
starting at 0. -/
structure HugeCTRBuffer where
  reserved_buffers : List Nat
  total_num_elements : Nat
  ptr : Option Nat
  total_size_in_bytes : Nat
  sizeofT : Nat
  memtype : MemoryType
deriving DecidableEq, Repr

/-- HugeCTRBuffer<T>::create(m_type): a fresh buffer with empty reservation
list, null pointer and zero size. -/
def HugeCTRBuffer.create (sizeofT : Nat) (m_type : MemoryType) : HugeCTRBuffer :=
  { reserved_buffers := []
    total_num_elements := 0
    ptr := none
    total_size_in_bytes := 0
    sizeofT := sizeofT
    memtype := m_type }

/-- HugeCTRBuffer::allocated(): `total_size_in_bytes_ != 0 && ptr_ != nullptr`. -/
def HugeCTRBuffer.allocated (b : HugeCTRBuffer) : Bool :=
  (b.total_size_in_bytes != 0) && b.ptr.isSome

/-- HugeCTRBuffer::get_buffer_size(). -/
def HugeCTRBuffer.get_buffer_size (b : HugeCTRBuffer) : Nat :=
  b.total_size_in_bytes

/-- HugeCTRBuffer::get_num_elements_from_dimensions: product of the extents,
starting from 1. -/
def get_num_elements_from_dimensions (dimensions : List Nat) : Nat :=
  dimensions.foldl (fun elements dim => elements * dim) 1

/-- HugeCTRBuffer::reserve(dimensions).  The source logs "IllegalCall:
Buffer is finalized." when `allocated()` holds but has no early return: it
appends to `reserved_buffers_` and bumps `total_num_elements_`
unconditionally.  The returned Bool records whether the illegal-call
message was printed. -/
def HugeCTRBuffer.reserve (b : HugeCTRBuffer) (dimensions : List Nat) :
    HugeCTRBuffer × Bool :=
  let illegal := b.allocated
  let num_elements := get_num_elements_from_dimensions dimensions
  let size_in_bytes := num_elements * b.sizeofT
  ({ b with
      reserved_buffers := b.reserved_buffers ++ [size_in_bytes]
      total_num_elements := b.total_num_elements + num_elements }, illegal)

/-- Rounding of one reservation inside HugeCTRBuffer::allocate:
`if (size % 32 != 0) size += (32 - size % 32)`. -/
def roundUpTo32 (size : Nat) : Nat :=
  if size % 32 != 0 then size + (32 - size % 32) else size

/-- Result of HugeCTRBuffer::allocate: the new buffer state, the list of
memory acquisitions performed (sizes passed to the CudaAllocator), and
whether the "WrongInput:Memory has already been allocated." message was
printed. -/
structure AllocResult where
  buf : HugeCTRBuffer
  acquisitions : List Nat
  warned : Bool
deriving DecidableEq, Repr

/-- HugeCTRBuffer::allocate().  The source warns when `ptr_ != nullptr` but
has no early return: it always recomputes the total from the pending
reservations (each rounded up to a multiple of 32), clears the list,
overwrites `total_size_in_bytes_`, and acquires memory only when the new
total is nonzero.  `freshAddr` stands for the address the allocator would
return. -/
def HugeCTRBuffer.allocate (b : HugeCTRBuffer) (freshAddr : Nat) : AllocResult :=
  let warned := b.ptr.isSome
  let offset := b.reserved_buffers.foldl (fun acc buffer => acc + roundUpTo32 buffer) 0
  if offset != 0 then
    { buf := { b with
        reserved_buffers := []
        total_size_in_bytes := offset
        ptr := some freshAddr }
      acquisitions := [offset]
      warned := warned }
  else
    { buf := { b with
        reserved_buffers := []
        total_size_in_bytes := offset }
      acquisitions := []
      warned := warned }

/-- The fold in `allocate` equals the sum of the individually rounded
reservations. -/
theorem allocate_fold_eq_sum (l : List Nat) (a : Nat) :
    l.foldl (fun acc buffer => acc + roundUpTo32 buffer) a =
      a + (l.map roundUpTo32).sum := by
  induction l generalizing a with
  | nil => simp
  | cons x xs ih =>
    simp only [List.foldl_cons, List.map_cons, List.sum_cons, ih]
    omega

/- Concrete buffers used in the buffer-level counterexamples: a
HugeCTRBuffer<float> with one reservation of 25 elements (100 bytes,
rounded to 128), allocated once, then misused. -/

/-- A float buffer with one 25-element reservation declared. -/
def bufReserved : HugeCTRBuffer :=
  ((HugeCTRBuffer.create 4 MemoryType.GPU).reserve [25]).1

/-- First (legal) allocation of `bufReserved`, at model address 1000. -/
def bufFirstAlloc : AllocResult := bufReserved.allocate 1000

/-- Second (illegal) allocation of the same buffer, at model address 2000. -/
def bufSecondAlloc : AllocResult := bufFirstAlloc.buf.allocate 2000

/-- C3.  Calling allocate() a second time on an already-allocated buffer
performs no new memory acquisition and leaves get_ptr() unchanged, but it
is NOT a state-preserving no-op: the missing early return after the
"WrongInput" message lets the call fall through, recompute the (now empty)
reservation total, and overwrite `total_size_in_bytes_` with 0 — so the
recorded capacity changes from 128 to 0 and `allocated()` flips to false.
This evaluates the code at the failing input of the C3 code bug. -/
theorem c3_second_allocate_clobbers_capacity :
    bufFirstAlloc.buf.total_size_in_bytes = 128 ∧
    bufFirstAlloc.buf.ptr = some 1000 ∧
    bufFirstAlloc.buf.allocated = true ∧
    bufSecondAlloc.warned = true ∧
    bufSecondAlloc.acquisitions = [] ∧
    bufSecondAlloc.buf.ptr = some 1000 ∧
    bufSecondAlloc.buf.total_size_in_bytes = 0 ∧
    bufSecondAlloc.buf.allocated = false := by
  decide

/-- The result of calling reserve({2}) on the already-allocated
`bufFirstAlloc.buf`. -/
def bufLateReserve : HugeCTRBuffer × Bool := bufFirstAlloc.buf.reserve [2]

/-- C4.  Calling reserve() after allocate() logs "IllegalCall: Buffer is
finalized." but, lacking an early return, still appends 2*sizeof(float) = 8
bytes to the pending-reservation list and bumps the recorded element count
from 25 to 27 — the call is not a no-op.  This evaluates the code at the
failing input of the C4 code bug. -/
theorem c4_reserve_after_allocate_mutates :
    bufFirstAlloc.buf.allocated = true ∧
    bufFirstAlloc.buf.reserved_buffers = [] ∧
    bufFirstAlloc.buf.total_num_elements = 25 ∧
    bufLateReserve.2 = true ∧
    bufLateReserve.1.reserved_buffers = [8] ∧
    bufLateReserve.1.total_num_elements = 27 := by
  decide

/-- C5 counterexample.  A buffer whose pending-reservation list is empty
(total capacity 0): allocate() performs zero memory acquisitions, not
exactly one. -/
theorem c5_counterexample :
    ((HugeCTRBuffer.create 4 MemoryType.GPU).allocate 0).acquisitions = [] ∧
    ((HugeCTRBuffer.create 4 MemoryType.GPU).allocate 0).acquisitions.length ≠ 1 := by
  decide

/-- C5 (amended).  For every buffer state and every fresh address,
allocate() sets the total capacity to the sum of the pending reservations
each rounded up to the next multiple of 32, clears the pending list, and
performs exactly one memory acquisition of that total when it is nonzero
and none when it is zero. -/
theorem c5_allocate_capacity (b : HugeCTRBuffer) (freshAddr : Nat) :
    (b.allocate freshAddr).buf.total_size_in_bytes =
        (b.reserved_buffers.map roundUpTo32).sum ∧
    (b.allocate freshAddr).buf.reserved_buffers = [] ∧
    (b.allocate freshAddr).acquisitions =
      (if (b.reserved_buffers.map roundUpTo32).sum = 0 then []
       else [(b.reserved_buffers.map roundUpTo32).sum]) := by
  unfold HugeCTRBuffer.allocate
  rw [allocate_fold_eq_sum]
  simp only [Nat.zero_add, bne_iff_ne, ne_eq]
  by_cases h : (b.reserved_buffers.map roundUpTo32).sum = 0
  · simp [h]
  · simp [h]

/-- C6 counterexample.  A buffer whose reservations round and sum to zero:
allocate() performs no acquisition — but afterwards `allocated()` reports
false (ptr_ is still nullptr and the size is 0), so the buffer is NOT
considered to be in the allocated state. -/
theorem c6_counterexample :
    ((HugeCTRBuffer.create 4 MemoryType.GPU).allocate 0).acquisitions = [] ∧
    ((HugeCTRBuffer.create 4 MemoryType.GPU).allocate 0).buf.allocated = false := by
  decide

/-- C6 (amended).  When the pending reservations round and sum to zero,
allocate() performs no memory acquisition and leaves the pointer exactly as
it was; on a buffer not yet allocated (null pointer) the buffer afterwards
still reports `allocated() = false` — it is considered unallocated, not
allocated-but-empty. -/
theorem c6_allocate_zero_total (b : HugeCTRBuffer) (freshAddr : Nat)
    (h : (b.reserved_buffers.map roundUpTo32).sum = 0) :
    (b.allocate freshAddr).acquisitions = [] ∧
    (b.allocate freshAddr).buf.ptr = b.ptr ∧
    (b.allocate freshAddr).buf.total_size_in_bytes = 0 ∧
    (b.ptr = none → (b.allocate freshAddr).buf.allocated = false) := by
  unfold HugeCTRBuffer.allocate
  rw [allocate_fold_eq_sum, h]
  simp [HugeCTRBuffer.allocated]

/-- C6 witness: the amended statement applied to a freshly created buffer. -/
theorem c6_allocate_zero_total_witness :
    ((HugeCTRBuffer.create 4 MemoryType.GPU).allocate 7).acquisitions = [] ∧
    ((HugeCTRBuffer.create 4 MemoryType.GPU).allocate 7).buf.ptr =
      (HugeCTRBuffer.create 4 MemoryType.GPU).ptr ∧
    ((HugeCTRBuffer.create 4 MemoryType.GPU).allocate 7).buf.total_size_in_bytes = 0 ∧
    ((HugeCTRBuffer.create 4 MemoryType.GPU).ptr = none →
      ((HugeCTRBuffer.create 4 MemoryType.GPU).allocate 7).buf.allocated = false) :=
  c6_allocate_zero_total (HugeCTRBuffer.create 4 MemoryType.GPU) 7 (by decide)

/-! Model-configuration parsing (ModelState::ParseModelConfig) and
validation (ModelState::ValidateModelConfig). -/

/-- The string-valued `parameters` section of a Triton model configuration,
restricted to the keys ParseModelConfig reads; `none` means the key is
absent.  The `gpucacheper` field is parsed by std::atof (never throws,
floating point) and is not tracked further. -/
structure ConfigParams where
  slots : Option String := none
  des_feature_num : Option String := none
  cat_feature_num : Option String := none
  embedding_vector_size : Option String := none
  max_nnz : Option String := none
  config : Option String := none
  gpucache : Option String := none
  embeddingkey_long_type : Option String := none
deriving DecidableEq, Repr

/-- The ModelState fields set by ParseModelConfig, with the defaults of the
class member initializers (`cache_size_per`, a float, is not tracked). -/
structure ModelParams where
  max_batch_size : Int := 64
  slot_num : Int := 10
  dese_num : Int := 50
  cat_num : Int := 50
  embedding_size : Int := 64
  max_nnz : Int := 3
  hugectr_config : String := ""
  support_int64_key : Bool := false
  support_gpu_cache : Bool := false
deriving DecidableEq, Repr

/-- The default-initialized ModelState parameter fields. -/
def defaultModelParams : ModelParams := {}

/-- Digit-run accumulator for `stoi`. -/
def stoiDigits (ds : List Char) : Nat :=
  ds.foldl (fun a c => a * 10 + (c.toNat - 48)) 0

/-- std::stoi, base 10: skip leading whitespace, read an optional sign,
then the longest run of decimal digits.  Returns `none` where the C++
function throws: std::invalid_argument when no digits are found, and
std::out_of_range when the value does not fit in int. -/
def stoi (s : String) : Option Int :=
  let afterWs := s.data.dropWhile Char.isWhitespace
  let signAndDigits : Int × List Char :=
    match afterWs with
    | '-' :: rest => (-1, rest)
    | '+' :: rest => (1, rest)
    | cs => (1, cs)
  let ds := signAndDigits.2.takeWhile Char.isDigit
  if ds.isEmpty then none
  else
    let v : Int := signAndDigits.1 * (stoiDigits ds : Int)
    if v < -2147483648 ∨ 2147483647 < v then none else some v

/-- One numeric parameter of ParseModelConfig: absent keys keep the current
state, present keys go through std::stoi and apply the update; `none`
models the std::stoi exception propagating (the source has no try/catch). -/
def parseNumericField (o : Option String) (upd : Int → ModelParams → ModelParams) :
    Option ModelParams → Option ModelParams
  | none => none
  | some m =>
    match o with
    | none => some m
    | some s =>
      match stoi s with
      | none => none
      | some v => some (upd v m)

/-- The five std::stoi fields of ParseModelConfig, in source order
(slots, des_feature_num, cat_feature_num, embedding_vector_size, max_nnz). -/
def parseNumericFields (cfg : ConfigParams) (m : ModelParams) : Option ModelParams :=
  parseNumericField cfg.max_nnz (fun v m => { m with max_nnz := v })
    (parseNumericField cfg.embedding_vector_size (fun v m => { m with embedding_size := v })
      (parseNumericField cfg.cat_feature_num (fun v m => { m with cat_num := v })
        (parseNumericField cfg.des_feature_num (fun v m => { m with dese_num := v })
          (parseNumericField cfg.slots (fun v m => { m with slot_num := v }) (some m)))))

/-- The non-throwing string fields of ParseModelConfig: `config` (topology
path), `gpucache` and `embeddingkey_long_type` (set to true exactly on the
string "true"). -/
def parseStringFields (cfg : ConfigParams) (m : ModelParams) : ModelParams :=
  let m1 := match cfg.config with
    | some s => { m with hugectr_config := s }
    | none => m
  let m2 := match cfg.gpucache with
    | some s => if s = "true" then { m1 with support_gpu_cache := true } else m1
    | none => m1
  match cfg.embeddingkey_long_type with
  | some s => if s = "true" then { m2 with support_int64_key := true } else m2
  | none => m2

/-- Outcome of ModelState::ParseModelConfig.  `errorReturn` is a
TRITONSERVER_Error returned to the caller (the function returns nullptr on
success and has no path that returns an error for a malformed numeric
value); `thrown` is an exception from std::stoi escaping the function
uncaught. -/
inductive ParseOutcome
  | ok (m : ModelParams)
  | errorReturn (msg : String)
  | thrown
deriving DecidableEq, Repr

/-- Whether the outcome is a returned (reportable, recoverable) error. -/
def ParseOutcome.isErrorReturn : ParseOutcome → Bool
  | .errorReturn _ => true
  | _ => false

/-- ModelState::ParseModelConfig: the numeric fields (any std::stoi throw
escapes), then the string fields, then `max_batch_size` read from the
top-level model configuration (the MemberAsInt error is discarded, so an
absent key keeps the default). -/
def parseModelConfig (cfg : ConfigParams) (max_batch_size : Option Int)
    (m0 : ModelParams) : ParseOutcome :=
  match parseNumericFields cfg m0 with
  | none => .thrown
  | some m1 =>
    let m2 := parseStringFields cfg m1
    match max_batch_size with
    | some v => .ok { m2 with max_batch_size := v }
    | none => .ok m2

/-- A configuration with a malformed `slots` value. -/
def cfgMalformedSlots : ConfigParams := { slots := some "abc" }

/-- C9 counterexample.  With `slots` set to the malformed numeric string
"abc", ParseModelConfig neither reports a ConfigurationError (no error is
returned) nor continues: std::stoi throws std::invalid_argument and the
exception escapes the function uncaught, aborting model load abnormally. -/
theorem c9_counterexample :
    parseModelConfig cfgMalformedSlots none defaultModelParams = .thrown ∧
    (parseModelConfig cfgMalformedSlots none defaultModelParams).isErrorReturn = false := by
  decide

/-- True when one of the five std::stoi-parsed fields is present with a
string std::stoi rejects. -/
def hasMalformedNumericField (cfg : ConfigParams) : Bool :=
  [cfg.slots, cfg.des_feature_num, cfg.cat_feature_num,
   cfg.embedding_vector_size, cfg.max_nnz].any
    (fun o => match o with
      | some s => (stoi s).isNone
      | none => false)

theorem parseNumericField_none (o : Option String)
    (upd : Int → ModelParams → ModelParams) :
    parseNumericField o upd none = none := rfl

theorem parseNumericField_malformed {s : String} (h : stoi s = none)
    (upd : Int → ModelParams → ModelParams) (x : Option ModelParams) :
    parseNumericField (some s) upd x = none := by
  cases x with
  | none => rfl
  | some m => simp [parseNumericField, h]

/-- C9 (amended).  Whenever one of the numeric fields slots,
des_feature_num, cat_feature_num, embedding_vector_size or max_nnz is
present with a malformed numeric string, ParseModelConfig ends in an
uncaught std::stoi exception: no ConfigurationError is reported and no
parsed state is produced — model load is aborted by the escaping
exception rather than by an error result. -/
theorem c9_malformed_numeric_throws (cfg : ConfigParams)
    (max_batch_size : Option Int) (m0 : ModelParams)
    (h : hasMalformedNumericField cfg = true) :
    parseModelConfig cfg max_batch_size m0 = .thrown := by
  have hnum : parseNumericFields cfg m0 = none := by
    unfold hasMalformedNumericField at h
    simp only [List.any_cons, List.any_nil, Bool.or_eq_true, Bool.or_false] at h
    unfold parseNumericFields
    rcases h with h | h | h | h | h
    · cases hs : cfg.slots with
      | none => rw [hs] at h; exact absurd h (by simp)
      | some s =>
        rw [hs] at h
        have : stoi s = none := by
          simpa [Option.isNone_iff_eq_none] using h
        rw [parseNumericField_malformed this]
        repeat rw [parseNumericField_none]
    · cases hs : cfg.des_feature_num with
      | none => rw [hs] at h; exact absurd h (by simp)
      | some s =>
        rw [hs] at h
        have : stoi s = none := by
          simpa [Option.isNone_iff_eq_none] using h
        rw [parseNumericField_malformed this]
        repeat rw [parseNumericField_none]
    · cases hs : cfg.cat_feature_num with
      | none => rw [hs] at h; exact absurd h (by simp)
      | some s =>
        rw [hs] at h
        have : stoi s = none := by
          simpa [Option.isNone_iff_eq_none] using h
        rw [parseNumericField_malformed this]
        repeat rw [parseNumericField_none]
    · cases hs : cfg.embedding_vector_size with
      | none => rw [hs] at h; exact absurd h (by simp)
      | some s =>
        rw [hs] at h
        have : stoi s = none := by
          simpa [Option.isNone_iff_eq_none] using h
        rw [parseNumericField_malformed this]
        repeat rw [parseNumericField_none]
    · cases hs : cfg.max_nnz with
      | none => rw [hs] at h; exact absurd h (by simp)
      | some s =>
        rw [hs] at h
        have : stoi s = none := by
          simpa [Option.isNone_iff_eq_none] using h
        rw [parseNumericField_malformed this]
  unfold parseModelConfig
  rw [hnum]

/-- C9 witness: the amended statement applied to a configuration whose
des_feature_num is the malformed string "fifty". -/
theorem c9_malformed_numeric_throws_witness :
    parseModelConfig { des_feature_num := some "fifty" } none defaultModelParams =
      .thrown :=
  c9_malformed_numeric_throws { des_feature_num := some "fifty" } none
    defaultModelParams (by decide)

/-- One declared input/output tensor of the model configuration: its
`data_type` string and its `dims` shape (as ParseShape reads them). -/
structure TensorDecl where
  data_type : String
  dims : List Int
deriving DecidableEq, Repr

/-- The parts of the Triton model configuration JSON the backend reads:
the declared input and output tensor lists, the string-valued `parameters`
section, and the top-level `max_batch_size` (none when absent). -/
structure TritonModelConfig where
  inputs : List TensorDecl
  outputs : List TensorDecl
  parameters : ConfigParams
  max_batch_size : Option Int
deriving DecidableEq, Repr

/-- Result of ModelState::ValidateModelConfig: success, or a
TRITONSERVER_ERROR_INVALID_ARG with a message. -/
inductive ValidateResult
  | ok
  | invalidArg (msg : String)
deriving DecidableEq, Repr

/-- Whether validation rejected the configuration. -/
def ValidateResult.isError : ValidateResult → Bool
  | .ok => false
  | .invalidArg _ => true

/-- ModelState::ValidateModelConfig, in source order: exactly 3 inputs,
exactly 1 output, first input and first output must have the same
data_type, and the same dims. -/
def validateModelConfig (c : TritonModelConfig) : ValidateResult :=
  if c.inputs.length ≠ 3 then
    .invalidArg ("expected 1 input, got " ++ toString c.inputs.length)
  else if c.outputs.length ≠ 1 then
    .invalidArg ("expected 1 output, got " ++ toString c.outputs.length)
  else
    match c.inputs.head?, c.outputs.head? with
    | some input, some output =>
      if input.data_type ≠ output.data_type then
        .invalidArg ("expected input and output datatype to match, got " ++
          input.data_type ++ " and " ++ output.data_type)
      else if input.dims ≠ output.dims then
        .invalidArg "expected input and output shape to match"
      else .ok
    | _, _ => .invalidArg "index out of bounds"

/-- Outcome of TRITONBACKEND_ModelInitialize for a model configuration:
the model loads with the parsed parameters, an error is returned (which
would prevent the load), or an exception escapes. -/
inductive ModelInitOutcome
  | loaded (m : ModelParams)
  | errorReturn (msg : String)
  | thrown
deriving DecidableEq, Repr

/-- TRITONBACKEND_ModelInitialize, faithful to the source: it creates the
ModelState and runs ParseModelConfig; the ValidateModelConfig call at the
end of the function is commented out in the source and never executes, so
no validation outcome can influence the result. -/
def modelInitialize (c : TritonModelConfig) : ModelInitOutcome :=
  match parseModelConfig c.parameters c.max_batch_size defaultModelParams with
  | .ok m => .loaded m
  | .errorReturn msg => .errorReturn msg
  | .thrown => .thrown

/-- A model configuration with the contractual 3 inputs and 1 output but
with the first input datatype (TYPE_FP32) different from the output
datatype (TYPE_INT32) — the load-time violation of Scenario D. -/
def mismatchedDtypeConfig : TritonModelConfig :=
  { inputs := [{ data_type := "TYPE_FP32", dims := [-1] },
               { data_type := "TYPE_UINT32", dims := [-1] },
               { data_type := "TYPE_INT32", dims := [-1] }]
    outputs := [{ data_type := "TYPE_INT32", dims := [-1] }]
    parameters := {}
    max_batch_size := some 64 }

/-- C2.  The datatype-mismatch configuration is exactly what
ValidateModelConfig rejects — yet model load succeeds, because the
ValidateModelConfig call in TRITONBACKEND_ModelInitialize is commented
out: validation is performed zero times, not once, the model loads, and
instance construction proceeds afterwards.  This evaluates the code at the
failing input of the C2 code bug. -/
theorem c2_validation_skipped :
    validateModelConfig mismatchedDtypeConfig =
      .invalidArg "expected input and output datatype to match, got TYPE_FP32 and TYPE_INT32" ∧
    (validateModelConfig mismatchedDtypeConfig).isError = true ∧
    modelInitialize mismatchedDtypeConfig = .loaded defaultModelParams := by
  decide

/-! Model-instance construction (ModelInstanceState::ModelInstanceState). -/

/-- static_cast<size_t> of an int64_t value: reduction modulo 2^64. -/
def castSizeT (i : Int) : Nat := (i % (2 ^ 64 : Int)).toNat

/-- The buffer set owned by one ModelInstanceState.  Exactly the shared_ptr
members of the source class; a `none` categorical variant models a
shared_ptr that is never assigned (remains nullptr). -/
structure ModelInstanceBuffers where
  dense_value_buf : HugeCTRBuffer
  cat_column_index_buf_int32 : Option HugeCTRBuffer
  cat_column_index_buf_int64 : Option HugeCTRBuffer
  row_ptr_buf : HugeCTRBuffer
  prediction_buf : HugeCTRBuffer
deriving DecidableEq, Repr

/-- create + reserve(dims) + allocate(), the idiom the instance constructor
applies to each buffer; `addr` is the model address for the acquisition. -/
def mkAllocatedBuffer (sizeofT : Nat) (t : MemoryType) (dims : List Nat)
    (addr : Nat) : HugeCTRBuffer :=
  ((((HugeCTRBuffer.create sizeofT t).reserve dims).1).allocate addr).buf

/-- The buffer allocations of the ModelInstanceState constructor:
dense (float, GPU, batch*dense), exactly one categorical variant chosen by
SupportLongEmbeddingKey (long long or unsigned int, pinned host,
batch*cat), row offsets (int, GPU, batch*slots+1), predictions (float,
GPU, batch).  Model addresses 1-4 stand for the successive cudaMalloc /
cudaMallocHost results. -/
def mkModelInstanceBuffers (p : ModelParams) : ModelInstanceBuffers :=
  { dense_value_buf :=
      mkAllocatedBuffer 4 MemoryType.GPU [castSizeT (p.max_batch_size * p.dese_num)] 1
    cat_column_index_buf_int64 :=
      if p.support_int64_key then
        some (mkAllocatedBuffer 8 MemoryType.PIN
          [castSizeT (p.max_batch_size * p.cat_num)] 2)
      else none
    cat_column_index_buf_int32 :=
      if p.support_int64_key then none
      else
        some (mkAllocatedBuffer 4 MemoryType.PIN
          [castSizeT (p.max_batch_size * p.cat_num)] 2)
    row_ptr_buf :=
      mkAllocatedBuffer 4 MemoryType.GPU
        [castSizeT (p.max_batch_size * p.slot_num + 1)] 3
    prediction_buf :=
      mkAllocatedBuffer 4 MemoryType.GPU [castSizeT p.max_batch_size] 4 }

/-- The byte capacity recorded for a just-allocated single-reservation
buffer: elements * sizeof(T), rounded up to a multiple of 32. -/
theorem mkAllocatedBuffer_capacity (sizeofT : Nat) (t : MemoryType)
    (n : Nat) (addr : Nat) :
    (mkAllocatedBuffer sizeofT t [n] addr).total_size_in_bytes =
      roundUpTo32 (n * sizeofT) ∧
    (mkAllocatedBuffer sizeofT t [n] addr).allocated =
      (roundUpTo32 (n * sizeofT) != 0) := by
  unfold mkAllocatedBuffer HugeCTRBuffer.allocate HugeCTRBuffer.reserve
    HugeCTRBuffer.create get_num_elements_from_dimensions
  simp only [List.foldl_cons, List.foldl_nil, List.nil_append, Nat.one_mul,
    Nat.zero_add]
  by_cases h : roundUpTo32 (n * sizeofT) = 0
  · simp [h, HugeCTRBuffer.allocated]
  · simp [h, HugeCTRBuffer.allocated]

/-- C7.  For every model configuration, exactly one categorical-index
buffer variant is instantiated and finalized, determined solely by the
embeddingkey_long_type flag: the 64-bit variant is present exactly when
SupportLongEmbeddingKey holds and the 32-bit variant exactly otherwise
(the unchosen shared_ptr stays null).  With the 64-bit key the finalized
capacity is max_batch_size * cat_feature_num * 8 bytes rounded up to a
multiple of 32, the pending-reservation list is cleared, and memory is
acquired (allocated() holds) exactly when that capacity is nonzero — in
particular for the defaults 64 * 50 * 8 = 25600 bytes. -/
theorem c7_exactly_one_cat_buffer (p : ModelParams) :
    ((mkModelInstanceBuffers p).cat_column_index_buf_int64.isSome =
      p.support_int64_key) ∧
    ((mkModelInstanceBuffers p).cat_column_index_buf_int32.isSome =
      !p.support_int64_key) ∧
    ((mkModelInstanceBuffers p).cat_column_index_buf_int64.map
        HugeCTRBuffer.get_buffer_size =
      if p.support_int64_key then
        some (roundUpTo32 (castSizeT (p.max_batch_size * p.cat_num) * 8))
      else none) ∧
    ((mkModelInstanceBuffers p).cat_column_index_buf_int64.map
        HugeCTRBuffer.allocated =
      if p.support_int64_key then
        some (roundUpTo32 (castSizeT (p.max_batch_size * p.cat_num) * 8) != 0)
      else none) ∧
    ((mkModelInstanceBuffers p).cat_column_index_buf_int32.map
        HugeCTRBuffer.get_buffer_size =
      if p.support_int64_key then none
      else some (roundUpTo32 (castSizeT (p.max_batch_size * p.cat_num) * 4))) ∧
    ((mkModelInstanceBuffers { defaultModelParams with support_int64_key := true
      }).cat_column_index_buf_int64.map HugeCTRBuffer.get_buffer_size =
        some 25600) ∧
    ((mkModelInstanceBuffers { defaultModelParams with support_int64_key := true
      }).cat_column_index_buf_int32 = none) := by
  refine ⟨?_, ?_, ?_, ?_, ?_, by decide, by decide⟩ <;>
    · unfold mkModelInstanceBuffers
      cases h : p.support_int64_key <;>
        simp [h, (mkAllocatedBuffer_capacity _ _ _ _).1,
          (mkAllocatedBuffer_capacity _ _ _ _).2, HugeCTRBuffer.get_buffer_size]

/-! Per-request execution (TRITONBACKEND_ModelInstanceExecute).  The loop
body is modelled per request; the only cross-request state in the source
is timing/statistics bookkeeping, which does not feed back into any
request's processing — but a request that crashes the process (see
`processOneRequest`) ends the batch, so later requests are never
processed. -/

/-- One inference request, reduced to the quantities the loop body branches
on: the requested output count, the byte sizes reported by
TRITONBACKEND_InputProperties for the three inputs, and the number of
contiguous input buffers. -/
structure Request where
  requested_output_count : Nat
  des_byte_size : Nat
  cat_byte_size : Nat
  row_byte_size : Nat
  input_buffer_count : Nat
deriving DecidableEq, Repr

/-- How the request's single final response was sent: as an error (via
GUARDED_RESPOND_IF_ERROR, which nulls the response slot), as a success
(TRITONSERVER_RESPONSE_COMPLETE_FINAL with no error), or not at all:
`crashed` models the undefined behavior at hugectr.cc:1377-1379, where
the unconditional LOG_MESSAGE argument concatenates the still-null
requested_output_name (initialized at line 1288 and assigned only inside
the requested_output_count > 0 block at 1289-1294) into a std::string,
aborting the process before any response can be sent. -/
inductive ResponseKind
  | errorSent (msg : String)
  | successSent
  | crashed
deriving DecidableEq, Repr

/-- Observable outcome of one loop iteration: the response kind, the shape
of the output tensor created in the response (none if no output was
created), how many times ProcessRequest (the scoring predict call) ran,
how many floats the final cudaMemcpy wrote into the output buffer (none if
it never ran), how many host-to-device staging copies ran, and whether the
informational response parameters were attached. -/
structure RequestResult where
  response : ResponseKind
  outputShape : Option (List Int)
  predictCalls : Nat
  copiedOutputFloats : Option Int
  stageCopies : Nat
  paramsAttached : Bool
deriving DecidableEq, Repr

/-- The error message of the batch-size overflow response. -/
def overflowMsg : String := "The number of Input sample greater than max batch size"

/-- The per-request sample count:
`numofdes = des_byte_size / sizeof(float)` and
`numofsample = numofdes / DeseNum()` (int64_t division). -/
def sampleCount (p : ModelParams) (req : Request) : Int :=
  (Int.ofNat (req.des_byte_size / 4)) / p.dese_num

/-- The loop body of TRITONBACKEND_ModelInstanceExecute for one request,
assuming the host API calls themselves succeed.  Every request passes the
unconditional requested-output log at hugectr.cc:1377-1379 before the
output block: when no output is requested, requested_output_name is still
nullptr there (line 1288) and concatenating it into a std::string is
undefined behavior, so the request produces no response at all (modelled
as `crashed`) and the overflow check, staging, scoring, parameter
attachment and response send are never reached.  When an output is
requested the name was assigned and the log is harmless; then: compute
the sample count; if it exceeds max_batch_size, send the overflow error
response and continue (no output tensor, no staging, no predict);
otherwise create the output tensor with shape [numofsample], stage the
three inputs once per input buffer (3 copies each), invoke
ProcessRequest(numofsample) per input buffer, copy numofsample floats
from the prediction buffer into the output, attach the informational
response parameters and send the final success response. -/
def processOneRequest (p : ModelParams) (req : Request) : RequestResult :=
  if 0 < req.requested_output_count then
    let numofsample := sampleCount p req
    if numofsample > p.max_batch_size then
      { response := .errorSent overflowMsg
        outputShape := none
        predictCalls := 0
        copiedOutputFloats := none
        stageCopies := 0
        paramsAttached := false }
    else
      { response := .successSent
        outputShape := some [numofsample]
        predictCalls := req.input_buffer_count
        copiedOutputFloats :=
          if req.input_buffer_count = 0 then none else some numofsample
        stageCopies := 3 * req.input_buffer_count
        paramsAttached := true }
  else
    { response := .crashed
      outputShape := none
      predictCalls := 0
      copiedOutputFloats := none
      stageCopies := 0
      paramsAttached := false }

/-- The request loop: requests are processed in order and independently —
no branch of the loop body reads any other request's data or response —
until a request crashes the process (zero requested outputs, see
`processOneRequest`), which ends the batch: later requests are never
processed. -/
def executeBatch (p : ModelParams) : List Request → List RequestResult
  | [] => []
  | req :: rest =>
    if (processOneRequest p req).response = ResponseKind.crashed then
      [processOneRequest p req]
    else
      processOneRequest p req :: executeBatch p rest

/-- Branch lemma: requested output present and sample count over the
configured batch size sends the overflow error and nothing else. -/
theorem processOneRequest_overflow (p : ModelParams) (req : Request)
    (h1 : 0 < req.requested_output_count)
    (h2 : sampleCount p req > p.max_batch_size) :
    processOneRequest p req =
      { response := .errorSent overflowMsg
        outputShape := none
        predictCalls := 0
        copiedOutputFloats := none
        stageCopies := 0
        paramsAttached := false } := by
  unfold processOneRequest
  rw [if_pos h1, if_pos h2]

/-- Branch lemma: requested output present and sample count within the
batch size produces the success response with output shape [numofsample]. -/
theorem processOneRequest_ok (p : ModelParams) (req : Request)
    (h1 : 0 < req.requested_output_count)
    (h2 : ¬ sampleCount p req > p.max_batch_size) :
    processOneRequest p req =
      { response := .successSent
        outputShape := some [sampleCount p req]
        predictCalls := req.input_buffer_count
        copiedOutputFloats :=
          if req.input_buffer_count = 0 then none else some (sampleCount p req)
        stageCopies := 3 * req.input_buffer_count
        paramsAttached := true } := by
  unfold processOneRequest
  rw [if_pos h1, if_neg h2]

/-- A request that asks for at least one output never crashes the loop
body: its requested_output_name is assigned before the log. -/
theorem processOneRequest_pos_not_crashed (p : ModelParams) (req : Request)
    (h1 : 0 < req.requested_output_count) :
    (processOneRequest p req).response ≠ ResponseKind.crashed := by
  by_cases h2 : sampleCount p req > p.max_batch_size
  · rw [processOneRequest_overflow p req h1 h2]; simp
  · rw [processOneRequest_ok p req h1 h2]; simp

theorem executeBatch_cons_of_not_crashed (p : ModelParams) (req : Request)
    (rest : List Request)
    (h : (processOneRequest p req).response ≠ ResponseKind.crashed) :
    executeBatch p (req :: rest) =
      processOneRequest p req :: executeBatch p rest := by
  simp only [executeBatch]
  rw [if_neg h]

/-- As long as every request of a leading segment asks for at least one
output, none of them crashes and the batch result decomposes at the
segment boundary. -/
theorem executeBatch_append (p : ModelParams) (pre post : List Request)
    (hpre : ∀ q ∈ pre, 0 < q.requested_output_count) :
    executeBatch p (pre ++ post) = executeBatch p pre ++ executeBatch p post := by
  induction pre with
  | nil => simp [executeBatch]
  | cons q rest ih =>
    have hq : 0 < q.requested_output_count := hpre q (List.mem_cons_self q rest)
    have hrest : ∀ x ∈ rest, 0 < x.requested_output_count :=
      fun x hx => hpre x (List.mem_cons_of_mem q hx)
    have hnc := processOneRequest_pos_not_crashed p q hq
    rw [List.cons_append, executeBatch_cons_of_not_crashed p q _ hnc,
      executeBatch_cons_of_not_crashed p q rest hnc, ih hrest, List.cons_append]

/-- A batch-overflow request that requests no output (defaults: 20000
dense bytes = 5000 floats, DeseNum 50, sample count 100 > 64). -/
def reqOverflowNoOutput : Request :=
  { requested_output_count := 0
    des_byte_size := 20000
    cat_byte_size := 400
    row_byte_size := 44
    input_buffer_count := 1 }

/-- A valid request under the default configuration: 2000 dense bytes =
500 floats, sample count 10 ≤ 64, one output requested. -/
def reqValid : Request :=
  { requested_output_count := 1
    des_byte_size := 2000
    cat_byte_size := 40
    row_byte_size := 44
    input_buffer_count := 1 }

/-- C1 counterexample.  A request whose computed sample count (100)
exceeds max_batch_size (64) but whose requested output count is 0: no
BatchOverflowError is raised for it — the loop body crashes the process
at the null requested-output-name log before the overflow check — and a
valid sibling placed after it in the batch is never processed at all, so
both the raises-BatchOverflowError part and the siblings-unaffected part
of the claim fail at this input. -/
theorem c1_counterexample :
    sampleCount defaultModelParams reqOverflowNoOutput = 100 ∧
    sampleCount defaultModelParams reqOverflowNoOutput >
      defaultModelParams.max_batch_size ∧
    (processOneRequest defaultModelParams reqOverflowNoOutput).response =
      .crashed ∧
    (processOneRequest defaultModelParams reqOverflowNoOutput).response ≠
      .errorSent overflowMsg ∧
    executeBatch defaultModelParams [reqOverflowNoOutput, reqValid] =
      [{ response := .crashed
         outputShape := none
         predictCalls := 0
         copiedOutputFloats := none
         stageCopies := 0
         paramsAttached := false }] := by
  decide

/-- C1 (amended).  For every request that requests at least one output and
whose computed sample count exceeds max_batch_size — in a batch whose
earlier requests all request at least one output, so that the process
reaches it (a zero-output request crashes the process first, see C10) —
the processor sends the BatchOverflowError response for that request and
never invokes the scoring predict for it, and every sibling request in
the batch is processed exactly as it would be on its own (the batch
result decomposes request by request, so a subsequent valid request still
succeeds). -/
theorem c1_overflow_isolated (p : ModelParams) (pre post : List Request)
    (req : Request)
    (h1 : 0 < req.requested_output_count)
    (h2 : sampleCount p req > p.max_batch_size)
    (hpre : ∀ q ∈ pre, 0 < q.requested_output_count) :
    executeBatch p (pre ++ req :: post) =
      executeBatch p pre ++
        ({ response := .errorSent overflowMsg
           outputShape := none
           predictCalls := 0
           copiedOutputFloats := none
           stageCopies := 0
           paramsAttached := false } : RequestResult) :: executeBatch p post ∧
    (processOneRequest p req).predictCalls = 0 := by
  have hover := processOneRequest_overflow p req h1 h2
  constructor
  · rw [executeBatch_append p pre (req :: post) hpre,
      executeBatch_cons_of_not_crashed p req post (by rw [hover]; simp), hover]
  · rw [hover]

/-- An overflow request that does request an output. -/
def reqOverflowWithOutput : Request :=
  { reqOverflowNoOutput with requested_output_count := 1 }

/-- C1 witness: the amended statement at the default configuration, for a
batch holding the oversized request followed by a valid sibling (the
empty leading segment trivially satisfies the output-requested proviso). -/
theorem c1_overflow_isolated_witness :
    executeBatch defaultModelParams ([] ++ reqOverflowWithOutput :: [reqValid]) =
      executeBatch defaultModelParams [] ++
        ({ response := .errorSent overflowMsg
           outputShape := none
           predictCalls := 0
           copiedOutputFloats := none
           stageCopies := 0
           paramsAttached := false } : RequestResult)
          :: executeBatch defaultModelParams [reqValid] ∧
    (processOneRequest defaultModelParams reqOverflowWithOutput).predictCalls = 0 :=
  c1_overflow_isolated defaultModelParams [] [reqValid] reqOverflowWithOutput
    (by decide) (by decide) (by intro q hq; cases hq)

/-- C8.  For every successfully processed request (an output is requested,
the sample count is within max_batch_size, and the request's data arrives
in at least one input buffer), the output tensor is created with shape
[sample_count] and exactly sample_count floats are copied from the
prediction buffer into it.  The sample count is
(des_byte_size / 4) / dense_feature_count, a quantity independent of
max_batch_size: the configured batch size only bounds which requests reach
this path. -/
theorem c8_output_length_eq_sample_count (p : ModelParams) (req : Request)
    (h1 : 0 < req.requested_output_count)
    (h2 : ¬ sampleCount p req > p.max_batch_size)
    (h3 : 0 < req.input_buffer_count) :
    (processOneRequest p req).response = .successSent ∧
    (processOneRequest p req).outputShape = some [sampleCount p req] ∧
    (processOneRequest p req).copiedOutputFloats = some (sampleCount p req) ∧
    sampleCount p req = (Int.ofNat (req.des_byte_size / 4)) / p.dese_num := by
  rw [processOneRequest_ok p req h1 h2]
  refine ⟨rfl, rfl, ?_, rfl⟩
  simp only [Nat.pos_iff_ne_zero] at h3
  simp [h3]

/-- C8 witness: the valid request above (sample count 10) under the default
configuration (max_batch_size 64). -/
theorem c8_output_length_witness :
    (processOneRequest defaultModelParams reqValid).response = .successSent ∧
    (processOneRequest defaultModelParams reqValid).outputShape =
      some [sampleCount defaultModelParams reqValid] ∧
    (processOneRequest defaultModelParams reqValid).copiedOutputFloats =
      some (sampleCount defaultModelParams reqValid) ∧
    sampleCount defaultModelParams reqValid =
      (Int.ofNat (reqValid.des_byte_size / 4)) / defaultModelParams.dese_num :=
  c8_output_length_eq_sample_count defaultModelParams reqValid
    (by decide) (by decide) (by decide)

/-- C10.  For every request whose requested output count is zero, the loop
body never reaches the overflow check, the staging copies or the
ProcessRequest scoring call (predict is never invoked for it) — but it
does not attach the informational response parameters or send a success
final response either: the unconditional requested-output log at
hugectr.cc:1377-1379 concatenates the still-null requested_output_name
(line 1288) into a std::string, undefined behavior that aborts the
process before the parameter attachment (1526-1535) and the success send
(1542-1546), contradicting the code's own comment (1285-1287) that a
request is not required to request any output. -/
theorem c10_zero_output_crashes (p : ModelParams) (req : Request)
    (h : req.requested_output_count = 0) :
    processOneRequest p req =
      { response := .crashed
        outputShape := none
        predictCalls := 0
        copiedOutputFloats := none
        stageCopies := 0
        paramsAttached := false } := by
  unfold processOneRequest
  rw [if_neg (by omega)]

/-- C10 witness: the zero-output request evaluated concretely — no predict
call, no staging, no output tensor, no parameters attached and no success
response; the process dies at the null-name log. -/
theorem c10_zero_output_crashes_witness :
    processOneRequest defaultModelParams reqOverflowNoOutput =
      { response := .crashed
        outputShape := none
        predictCalls := 0
        copiedOutputFloats := none
        stageCopies := 0
        paramsAttached := false } :=
  c10_zero_output_crashes defaultModelParams reqOverflowNoOutput rfl

end HugectrBackend
